import Mathlib

/-!
Verification development for the Naoris node bot (`bot.py`).

The file shallowly embeds the core of `NaorisProtocol` and `RateLimiter`:

* proxy assignment and rotation (`get_next_proxy`, `rotate_proxy`,
  `_format_proxy`, bot.py lines 67-89), over an explicit `BotState`;
* the token-acquisition retry loop (`get_access_token`, lines 93-122);
* the heartbeat outcome classification (`heartbeat_loop`, lines 158-197);
* session renewal and activation (`renew_session`, `activate_protection`,
  lines 199-225 and 282-327);
* heartbeat-failure recovery (`handle_heartbeat_failure`, lines 227-237);
* the token-refresh loop's local-variable update (`token_refresh_loop`,
  lines 143-154) against the token parameters held by the concurrently
  running heartbeat and protection loops;
* the pacing section of `RateLimiter.__aenter__` (lines 17-34) under the
  asyncio cooperative-scheduling semantics.

Network responses are inputs: a remote call is modelled by the data the
Python code inspects about its result (status code, whether the body
parsed as JSON, the relevant body field, or a raised transport error).
Side effects (requests issued, proxy rotations, sleeps) are recorded in
explicit effect traces.
-/

namespace NaorisBot

/-! ## Proxy state (bot.py lines 47-49, 67-89)

`BotState` carries the fields of `NaorisProtocol.__init__` that the proxy
methods read and write: `self.proxies` (list of proxy strings),
`self.proxy_index` (round-robin cursor), `self.account_proxies`
(dict account -> proxy, modelled as an association list). -/

structure BotState where
  proxies : List String
  proxy_index : Nat
  account_proxies : List (String × String)
deriving Repr, DecidableEq

/-- Python dict read `d.get(k)` / `d[k]` on the association list. -/
def dictGet (d : List (String × String)) (k : String) : Option String :=
  (d.find? (fun p => p.1 = k)).map (fun p => p.2)

/-- Python dict write `d[k] = v` on the association list. -/
def dictSet (d : List (String × String)) (k v : String) : List (String × String) :=
  match d with
  | [] => [(k, v)]
  | (k', v') :: rest => if k' = k then (k, v) :: rest else (k', v') :: dictSet rest k v

/-- The scheme prefixes accepted by `_format_proxy` (bot.py line 88). -/
def schemes : List String := ["http://", "https://", "socks4://", "socks5://"]

/-- `NaorisProtocol._format_proxy` (bot.py lines 86-89): prepend `http://`
unless the string already starts with one of the accepted schemes. -/
def _format_proxy (proxy : String) : String :=
  if schemes.any (fun s => proxy.startsWith s) then proxy else "http://" ++ proxy

/-- The pool index used by both `get_next_proxy` (line 72) and
`rotate_proxy` (line 81): `self.proxy_index % len(self.proxies)`. -/
def proxy_pool_index (s : BotState) : Nat :=
  s.proxy_index % s.proxies.length

/-- The pool entry read by `self.proxies[self.proxy_index % len(self.proxies)]`
(bot.py lines 72 and 81), with the in-range proof coming from `% len`. -/
def pool_entry (s : BotState) (h : s.proxies.length ≠ 0) : String :=
  s.proxies.get ⟨proxy_pool_index s, Nat.mod_lt _ (Nat.pos_of_ne_zero h)⟩

/-- The state after binding `account` to the cursor's pool entry and advancing
the cursor (the shared body of lines 72-74 and 80-83). -/
def bind_and_advance (s : BotState) (account : String) (h : s.proxies.length ≠ 0) :
    BotState :=
  { s with
    proxy_index := s.proxy_index + 1,
    account_proxies := dictSet s.account_proxies account (_format_proxy (pool_entry s h)) }

/-- `NaorisProtocol.get_next_proxy` (bot.py lines 67-75).  Python truthiness
of the stored binding is `≠ ""` (bindings are strings); `account not in
self.account_proxies or not self.account_proxies[account]` is
`(dictGet …).getD "" = ""`.  Returns the value the Python function returns
(`None` or the binding) together with the updated state. -/
def get_next_proxy (s : BotState) (account : String) : Option String × BotState :=
  if (dictGet s.account_proxies account).getD "" = "" then
    if h : s.proxies.length = 0 then
      (none, s)
    else
      (dictGet (bind_and_advance s account h).account_proxies account,
       bind_and_advance s account h)
  else
    (dictGet s.account_proxies account, s)

/-- `NaorisProtocol.rotate_proxy` (bot.py lines 77-84): when the pool is
non-empty, rebind the account to the cursor's entry and advance the cursor;
in all cases return `self.account_proxies.get(account)`. -/
def rotate_proxy (s : BotState) (account : String) : Option String × BotState :=
  if h : s.proxies.length = 0 then
    (dictGet s.account_proxies account, s)
  else
    (dictGet (bind_and_advance s account h).account_proxies account,
     bind_and_advance s account h)

/-- Iterated `get_next_proxy` calls for one account, returning the result of
the last call (`assign_iter (n+1)` performs `n+1` calls). -/
def assign_iter : Nat → BotState → String → Option String × BotState
  | 0, s, account => get_next_proxy s account
  | n + 1, s, account => assign_iter n (get_next_proxy s account).2 account

/-! ## Effect traces

Observable side effects of the embedded operations: outbound requests,
proxy rotations and sleeps (durations in seconds, as the Python literals). -/

inductive Eff where
  | issueToken
  | rotateProxy
  | sleep (seconds : Nat)
  | switchOff
  | switchOn
  | renewAttempt
deriving Repr, DecidableEq

/-! ## HTTP result models

A finished network call is described by what the Python code inspects of
it.  `raise_for_status` of `curl_cffi`'s `Response` raises exactly when
`status_code >= 400` (its `ok` property is `status_code < 400`). -/

/-- Result of `curl_cffi`'s `Response.raise_for_status`: raises iff the
status code is at least 400.  (Statuses below 200 never reach the caller as
a final response — informational 1xx replies are consumed by curl itself —
so only the behavior on statuses from 200 up matters.) -/
def raise_for_status_raises (status : Nat) : Bool :=
  400 ≤ status

/-- Result of the token-issuing POST in `get_access_token` (bot.py lines
100-112): either the request raised (network/timeout error), or it returned
a status code and a body.  The body is `none` when `response.json()` raises
(unparseable), otherwise `some tok` where `tok` is the value of
`response.json().get('token')` (`none` when the field is missing). -/
inductive AuthResponse where
  | transportError
  | response (status : Nat) (body : Option (Option String))
deriving Repr, DecidableEq

/-- Whether the `try` block of one `get_access_token` attempt raises
(bot.py lines 98-114): the request itself raised, `raise_for_status`
raised, or `response.json()` raised. -/
def auth_exception : AuthResponse → Bool
  | .transportError => true
  | .response status body => raise_for_status_raises status || body = none

/-- The value of the Python local `token` after line 114 when no exception
was raised (`response.json().get('token')`). -/
def auth_token_field : AuthResponse → Option String
  | .transportError => none
  | .response _ body => body.getD none

/-- The token the attempt returns, if any: the `try` block must not have
raised, and `if token:` (line 115) succeeds exactly when the field is
present and non-empty (Python truthiness). -/
def auth_attempt_success_token (r : AuthResponse) : Option String :=
  if auth_exception r then none
  else
    match auth_token_field r with
    | some t => if t = "" then none else some t
    | none => none

/-- Loop body of `get_access_token` (bot.py lines 97-122) over the sequence
of attempt results, producing the effect trace and returned value.  Per
attempt: the POST is issued; on an exception the `except` branch rotates
the proxy (when `use_proxy`, line 120) and sleeps 5s (line 121); on a
truthy token the function returns it (line 117); on a 2xx parse with a
missing or empty token the loop simply continues with no effects. -/
def auth_loop (use_proxy : Bool) : List AuthResponse → List Eff × Option String
  | [] => ([], none)
  | r :: rest =>
    if auth_exception r then
      (Eff.issueToken ::
        ((if use_proxy then [Eff.rotateProxy] else []) ++
          Eff.sleep 5 :: (auth_loop use_proxy rest).1),
       (auth_loop use_proxy rest).2)
    else
      match auth_attempt_success_token r with
      | some t => ([Eff.issueToken], some t)
      | none => (Eff.issueToken :: (auth_loop use_proxy rest).1, (auth_loop use_proxy rest).2)

/-- `NaorisProtocol.get_access_token` (bot.py lines 93-122): `for _ in
range(3)` examines at most the first three attempt results, then returns
`None` (line 122). -/
def get_access_token (use_proxy : Bool) (rs : List AuthResponse) :
    List Eff × Option String :=
  auth_loop use_proxy (rs.take 3)

/-! ## Heartbeat outcome (bot.py lines 158-197) -/

/-- Result of the heartbeat POST (lines 164-179): a raised transport error,
or a status code plus the body as seen by the code.  The body is `none`
when `response.json()` raises, otherwise `some f` where `f` is the Python
truthiness of `data.get("success", False)` as an optional field (`none`
when `success` is missing, `some b` when present with truthiness `b`). -/
inductive HBResponse where
  | transportError
  | response (status : Nat) (body : Option (Option Bool))
deriving Repr, DecidableEq

/-- The three heartbeat outcomes the loop distinguishes: sleep-8s-and-loop
(`ok`, line 192-193), `return await self.renew_session(...)`
(`sessionExpired`, lines 182-184), and the `except` branch invoking
`handle_heartbeat_failure` (`failure`, lines 195-197). -/
inductive HBOutcome where
  | ok
  | sessionExpired
  | failure
deriving Repr, DecidableEq

/-- Outcome classification of one heartbeat iteration (bot.py lines
181-197): status 410 is checked first (line 182); then `raise_for_status`
(line 186); then `response.json()` (line 188); then
`if not data.get("success", False): raise ValueError(...)` (lines
189-190); reaching line 192 is success. -/
def heartbeat_outcome : HBResponse → HBOutcome
  | .transportError => .failure
  | .response status body =>
    if status = 410 then .sessionExpired
    else if raise_for_status_raises status then .failure
    else
      match body with
      | none => .failure
      | some success => if success.getD false then .ok else .failure

/-- The heartbeat outcome mapping as the specification states it (spec §8
and §4.3): 410 yields `sessionExpired`; a 2xx status with `success`
present and truthy yields `ok`; a 2xx with `success` false or missing
yields `failure`; any other status or a transport error yields `failure`.
This definition follows the spec's words, for comparison with
`heartbeat_outcome`, which follows the code. -/
def claimed_heartbeat_outcome : HBResponse → HBOutcome
  | .transportError => .failure
  | .response status body =>
    if status = 410 then .sessionExpired
    else if 200 ≤ status ∧ status ≤ 299 then
      match body with
      | some (some true) => .ok
      | _ => .failure
    else .failure

/-- Restated heartbeat mapping amended to what the code computes: the `ok`
window is every non-410 status below 400 (not only 2xx), because
`raise_for_status` only raises at 400 and above. -/
def amended_heartbeat_outcome : HBResponse → HBOutcome
  | .transportError => .failure
  | .response status body =>
    if status = 410 then .sessionExpired
    else if status < 400 ∧ body = some (some true) then .ok
    else .failure

/-! ## Activation (bot.py lines 282-327) -/

/-- One iteration of the `activate_protection` retry loop, described by how
far the `try` block got: the OFF request raised; the ON request raised; or
the ON request returned with the given `response.text`. -/
inductive ActAttempt where
  | offRaised
  | onRaised
  | onBody (text : String)
deriving Repr, DecidableEq

/-- Substring containment on character lists: some suffix of `text` starts
with `pat`. -/
def charsContain (pat text : List Char) : Bool :=
  (List.range (text.length + 1)).any fun i => pat.isPrefixOf (text.drop i)

/-- The success test of line 322: `"Session started" in response.text`,
i.e. substring containment. -/
def containsSessionStarted (text : String) : Bool :=
  charsContain "Session started".data text.data

/-- Loop body of `activate_protection` (bot.py lines 284-327): per attempt
the OFF request is issued (line 287); if it does not raise, the ON request
is issued (line 305); if neither raises and the ON body contains the
phrase, return `True` (lines 322-323); an exception logs and sleeps 5s
(lines 324-326); a phrase-less ON body just continues the loop. -/
def act_loop : List ActAttempt → List Eff × Bool
  | [] => ([], false)
  | a :: rest =>
    match a with
    | .offRaised =>
      (Eff.switchOff :: Eff.sleep 5 :: (act_loop rest).1, (act_loop rest).2)
    | .onRaised =>
      (Eff.switchOff :: Eff.switchOn :: Eff.sleep 5 :: (act_loop rest).1, (act_loop rest).2)
    | .onBody t =>
      if containsSessionStarted t then ([Eff.switchOff, Eff.switchOn], true)
      else (Eff.switchOff :: Eff.switchOn :: (act_loop rest).1, (act_loop rest).2)

/-- `NaorisProtocol.activate_protection` (bot.py lines 282-327): `for _ in
range(3)`, then `return False` (line 327). -/
def activate_protection (attempts : List ActAttempt) : List Eff × Bool :=
  act_loop (attempts.take 3)

/-- Whether one activation attempt raised (and hence slept 5s). -/
def act_attempt_raises : ActAttempt → Bool
  | .offRaised => true
  | .onRaised => true
  | .onBody _ => false

/-- Whether one activation attempt succeeds (ON completed with the phrase
in its body). -/
def act_attempt_success : ActAttempt → Bool
  | .onBody t => containsSessionStarted t
  | _ => false

/-- The prefix of a list of attempts that actually gets executed: every
attempt up to and including the first success, or all of them. -/
def until_first_success {α : Type} (success : α → Bool) : List α → List α
  | [] => []
  | a :: rest => if success a then [a] else a :: until_first_success success rest

/-- Amended effect trace of `activate_protection`: the executed attempts
each issue OFF (and ON unless OFF raised), and a 5s sleep happens exactly
after the attempts that raised — an attempt whose ON body merely lacks the
phrase retries immediately with no pause. -/
def amended_act_effects (attempts : List ActAttempt) : List Eff :=
  (until_first_success act_attempt_success (attempts.take 3)).flatMap fun a =>
    match a with
    | .offRaised => [Eff.switchOff, Eff.sleep 5]
    | .onRaised => [Eff.switchOff, Eff.switchOn, Eff.sleep 5]
    | .onBody _ => [Eff.switchOff, Eff.switchOn]

/-- Effect trace of `activate_protection` as the claim states it: the
deactivate-then-activate sequence with a 5s pause after every attempt that
fails to observe the phrase (whatever the kind of failure).  This
definition follows the claim's words, for comparison with
`activate_protection`. -/
def claimed_act_effects (attempts : List ActAttempt) : List Eff :=
  (until_first_success act_attempt_success (attempts.take 3)).flatMap fun a =>
    match a with
    | .offRaised => [Eff.switchOff, Eff.sleep 5]
    | .onRaised => [Eff.switchOff, Eff.switchOn, Eff.sleep 5]
    | .onBody t =>
      [Eff.switchOff, Eff.switchOn] ++
        (if containsSessionStarted t then [] else [Eff.sleep 5])

/-- Amended effect trace of `get_access_token`: every executed attempt
issues the POST; rotation (under `use_proxy`) and the 5s sleep happen
exactly after the attempts whose `try` block raised — an attempt that
returned 2xx with a missing or empty `token` field retries immediately
with no rotation and no sleep. -/
def amended_auth_effects (use_proxy : Bool) (rs : List AuthResponse) : List Eff :=
  (until_first_success (fun r => (auth_attempt_success_token r).isSome) (rs.take 3)).flatMap
    fun r =>
      Eff.issueToken ::
        (if auth_exception r then
          (if use_proxy then [Eff.rotateProxy] else []) ++ [Eff.sleep 5]
        else [])

/-- Effect trace of `get_access_token` as the claim states it: rotation
(under `use_proxy`) and a 5s sleep after every failed attempt, where a
failure is a transport error, a non-2xx status, or a missing/empty token
field.  This definition follows the claim's words, for comparison with
`get_access_token`. -/
def claimed_auth_effects (use_proxy : Bool) (rs : List AuthResponse) : List Eff :=
  (until_first_success (fun r => (auth_attempt_success_token r).isSome) (rs.take 3)).flatMap
    fun r =>
      Eff.issueToken ::
        (if (auth_attempt_success_token r).isNone then
          (if use_proxy then [Eff.rotateProxy] else []) ++ [Eff.sleep 5]
        else [])

/-! ## Session renewal (bot.py lines 199-225) -/

/-- `NaorisProtocol.renew_session` (bot.py lines 199-225): acquire a fresh
token via `get_access_token` (line 204, `None` means return `False`); look
the account up in the loaded account file to find its `deviceHash` (lines
209-211, modelled as the `deviceHash : Option Nat` input since the file is
external; `none` means return `False`); then run `activate_protection` and
return its result (lines 213-225).  The returned value is only a `Bool`:
the fresh token is passed to the activation call and then goes out of
scope. -/
def renew_session (use_proxy : Bool) (authRs : List AuthResponse)
    (deviceHash : Option Nat) (acts : List ActAttempt) : List Eff × Bool :=
  match get_access_token use_proxy authRs with
  | (e1, none) => (e1, false)
  | (e1, some _) =>
    match deviceHash with
    | none => (e1, false)
    | some _ =>
      (e1 ++ (activate_protection acts).1, (activate_protection acts).2)

/-! ## Protection status (bot.py lines 262-280) -/

/-- Result of the status POST in `get_protection_status` as the code sees
it: `raised` when the request or `response.json()` raises (both are caught
by the bare `except:` at line 279), otherwise the status code and the
value of the body's `state` field (`none` when missing). -/
inductive StatusResponse where
  | raised
  | response (status : Nat) (stateField : Option String)
deriving Repr, DecidableEq

/-- `NaorisProtocol.get_protection_status` (bot.py lines 262-280): returns
`response.json().get("state", "unknown")` — the status code is never
inspected (no `raise_for_status`) — and `"error"` from the `except`
branch. -/
def get_protection_status : StatusResponse → String
  | .raised => "error"
  | .response _ stateField => stateField.getD "unknown"

/-! ## Heartbeat-failure recovery (bot.py lines 227-237) -/

/-- Number of positional parameters of `NaorisProtocol.maintain_session`
after `self` (bot.py line 124: `address, device_hash, use_proxy`). -/
def maintain_session_param_count : Nat := 3

/-- Result of a Python call: either it runs, or the interpreter raises
`TypeError` because the number of supplied positional arguments does not
match the callee's parameters. -/
inductive PyCall where
  | ran
  | typeError
deriving Repr, DecidableEq

/-- Invoking `self.maintain_session` with `argCount` positional arguments:
Python raises `TypeError` unless every positional parameter is supplied. -/
def call_maintain_session (argCount : Nat) : PyCall :=
  if argCount = maintain_session_param_count then .ran else .typeError

/-- The retry loop of `handle_heartbeat_failure` (bot.py lines 231-237)
over the renewal results, carrying the attempt counter used in
`2 ** attempt`: sleep, attempt renewal, return on success; once the loop
is exhausted, line 237 executes `await self.maintain_session(address,
use_proxy)` — two arguments. -/
def hb_failure_go (attempt : Nat) : List Bool → List Eff × PyCall
  | [] => ([], call_maintain_session 2)
  | r :: rest =>
    if r then ([Eff.sleep (2 ^ attempt), Eff.renewAttempt], .ran)
    else
      (Eff.sleep (2 ^ attempt) :: Eff.renewAttempt :: (hb_failure_go (attempt + 1) rest).1,
       (hb_failure_go (attempt + 1) rest).2)

/-- `NaorisProtocol.handle_heartbeat_failure` (bot.py lines 227-237):
rotate the proxy first (line 229), then `for attempt in range(3)`. -/
def handle_heartbeat_failure (renews : List Bool) : List Eff × PyCall :=
  ((Eff.rotateProxy :: (hb_failure_go 0 (renews.take 3)).1),
   (hb_failure_go 0 (renews.take 3)).2)

/-! ## The token variables of the three sub-loops (bot.py lines 124-154)

`maintain_session` (line 133-137) passes the string `token` by value into
`heartbeat_loop(address, token, use_proxy)`,
`protection_loop(address, device_hash, token, use_proxy)` and
`token_refresh_loop(address, token, use_proxy)`.  Each coroutine therefore
holds its own independent local binding named `token`; the assignment
`token = new_token` at line 150 rebinds only `token_refresh_loop`'s local.
`SessionTasks` records the three locals plus `last_refresh`. -/

structure SessionTasks where
  hb_token : String
  prot_token : String
  refresh_token_local : String
  last_refresh : Nat
deriving Repr, DecidableEq

/-- The three tasks as spawned by `maintain_session` (lines 133-137), all
capturing the same token string; `last_refresh = time.time()` at spawn
(line 145). -/
def spawn_session_tasks (token : String) (now : Nat) : SessionTasks :=
  { hb_token := token
    prot_token := token
    refresh_token_local := token
    last_refresh := now }

/-- One pass of the `token_refresh_loop` body (bot.py lines 146-154) at
time `now`, where `fetched` is what `get_access_token` returned when the
900s window has elapsed: `if time.time() - last_refresh > 900`, a truthy
`new_token` rebinds the loop's own `token` local and resets
`last_refresh`. -/
def token_refresh_step (now : Nat) (fetched : Option String) (s : SessionTasks) :
    SessionTasks :=
  if s.last_refresh + 900 < now then
    match fetched with
    | some t => { s with refresh_token_local := t, last_refresh := now }
    | none => s
  else s

/-- The bearer token `heartbeat_loop` sends on its next iteration (bot.py
line 169): its own `token` parameter. -/
def heartbeat_call_token (s : SessionTasks) : String :=
  s.hb_token

/-- The bearer token `protection_loop` uses on its next iteration (bot.py
lines 246, 251): its own `token` parameter. -/
def protection_call_token (s : SessionTasks) : String :=
  s.prot_token

/-- What one heartbeat iteration does next, given the classified outcome
(bot.py lines 181-197). -/
inductive HBLoopStep where
  | sleepThenContinue (seconds : Nat)
  | exitLoop (renewResult : Bool)
  | failureRecovery
deriving Repr, DecidableEq

/-- Control flow of one `heartbeat_loop` iteration: `ok` sleeps 8s and
loops (line 193); 410 executes `return await self.renew_session(...)`
(line 184), ending the coroutine with the renewal's result; an exception
runs `handle_heartbeat_failure` and loops (line 197). -/
def heartbeat_loop_step (r : HBResponse) (renewResult : Bool) : HBLoopStep :=
  match heartbeat_outcome r with
  | .ok => .sleepThenContinue 8
  | .sessionExpired => .exitLoop renewResult
  | .failure => .failureRecovery

/-- Whether `protection_loop` (bot.py lines 241-260) has finished: its body
is an unconditional `while not self.shutdown_event.is_set()` whose body
contains no `return` or `break` (every branch sleeps and continues), so
the coroutine completes exactly when the shutdown event is set at the
check. -/
def protection_loop_completes (shutdown : Bool) : Bool :=
  shutdown

/-- Whether `token_refresh_loop` (bot.py lines 143-154) has finished; its
body likewise contains no `return` or `break`. -/
def token_refresh_loop_completes (shutdown : Bool) : Bool :=
  shutdown

/-- Whether `maintain_session` can proceed past `await
asyncio.gather(*tasks)` (bot.py line 138) and re-enter token acquisition
once the heartbeat task has returned after a 410: `gather` completes only
when all three tasks have, so this requires the other two loops to have
completed. -/
def maintain_session_reenters_acquisition (shutdown : Bool) : Bool :=
  protection_loop_completes shutdown && token_refresh_loop_completes shutdown

/-! ## RateLimiter pacing (bot.py lines 17-34)

`__aenter__` acquires the semaphore (capacity 5), reads
`self.last_call`, sleeps `interval - elapsed` when `elapsed < interval`,
then sets `self.last_call` to the current loop time and returns.  Times
are rationals (event-loop seconds).  `two_task_grants` evaluates the grant
times of two tasks, A entering the pacing section at `tA` and B at `tB`
with `tA ≤ tB` and the semaphore uncontended (at most 2 of 5 permits in
use), under asyncio's cooperative single-threaded semantics:

* if A's `elapsed < interval` check fails, A runs lines 26-31 without any
  await, so `last_call` is updated to `tA` before B can run;
* otherwise A suspends in `asyncio.sleep` until `lastCall + interval`.
  If B enters before that wake time, B reads the *old* `last_call` (A has
  not yet updated it), so B also sleeps until `lastCall + interval`; both
  timers fire at the same loop time and are run in scheduling order, and
  the post-sleep code (lines 30-31) rechecks nothing — each task just
  stores the current time and returns;
* if B enters at or after A's wake time, A has already stored its grant
  time and B paces against it. -/

/-- Wake-up/grant time of the pacing section for a task entering at `now`
with the read value `lastCall` (bot.py lines 26-30). -/
def pace_wake (now lastCall interval : ℚ) : ℚ :=
  if now - lastCall < interval then lastCall + interval else now

/-- Whether the task suspends in `asyncio.sleep` (line 28-29). -/
def pace_sleeps (now lastCall interval : ℚ) : Prop :=
  now - lastCall < interval

instance (now lastCall interval : ℚ) : Decidable (pace_sleeps now lastCall interval) := by
  unfold pace_sleeps
  infer_instance

/-- Grant times `(gA, gB)` of two tasks entering the pacing section of
`RateLimiter.__aenter__` at `tA ≤ tB`, starting from `last_call = lc0`. -/
def two_task_grants (lc0 interval tA tB : ℚ) : ℚ × ℚ :=
  if pace_sleeps tA lc0 interval then
    if tB < lc0 + interval then
      (lc0 + interval, pace_wake tB lc0 interval)
    else
      (lc0 + interval, pace_wake tB (lc0 + interval) interval)
  else
    (tA, pace_wake tB tA interval)

/-! ## Helper and claim theorems -/

theorem dictGet_dictSet_self (d : List (String × String)) (k v : String) :
    dictGet (dictSet d k v) k = some v := by
  induction d with
  | nil => simp [dictGet, dictSet]
  | cons hd tl ih =>
    obtain ⟨k', v'⟩ := hd
    by_cases hk : k' = k
    · simp [dictGet, dictSet, hk]
    · simpa [dictGet, dictSet, hk, List.find?] using ih

theorem _format_proxy_ne_empty (p : String) : _format_proxy p ≠ "" := by
  unfold _format_proxy
  split
  · rename_i h
    intro hp
    subst hp
    revert h
    decide
  · intro hcon
    have hd : ("http://" ++ p).data = "".data := congrArg String.data hcon
    rw [String.data_append] at hd
    simp at hd

/-- Whenever `get_next_proxy` returns an actual proxy, the stored binding for
the account in the post-state is that proxy and it is non-empty. -/
theorem get_next_proxy_some_binding (s : BotState) (a p : String) (s' : BotState)
    (h : get_next_proxy s a = (some p, s')) :
    dictGet s'.account_proxies a = some p ∧ p ≠ "" := by
  unfold get_next_proxy at h
  split at h
  · split at h
    · exact absurd (congrArg Prod.fst h) (by simp)
    · simp only [Prod.mk.injEq] at h
      obtain ⟨h1, h2⟩ := h
      subst h2
      simp only [bind_and_advance, dictGet_dictSet_self] at h1 ⊢
      refine ⟨h1, ?_⟩
      intro hp
      rw [hp] at h1
      simp only [Option.some.injEq] at h1
      exact _format_proxy_ne_empty _ h1
  · rename_i hbound
    simp only [Prod.mk.injEq] at h
    obtain ⟨h1, h2⟩ := h
    subst h2
    refine ⟨h1, ?_⟩
    intro hp
    subst hp
    rw [h1] at hbound
    simp at hbound

/-- A `get_next_proxy` call that returns a proxy is a fixpoint: calling again
returns the same proxy and leaves the state unchanged. -/
theorem get_next_proxy_fixpoint (s : BotState) (a p : String) (s' : BotState)
    (h : get_next_proxy s a = (some p, s')) :
    get_next_proxy s' a = (some p, s') := by
  obtain ⟨hbind, hne⟩ := get_next_proxy_some_binding s a p s' h
  unfold get_next_proxy
  rw [hbind]
  simp [hne]

/-- Characterization of the `get_access_token` retry loop on any attempt
list: the effect trace walks the attempts up to the first success, with
rotation/sleep exactly after raising attempts, and the returned value is
the first attempt's token among those that succeed. -/
theorem auth_loop_spec (use_proxy : Bool) (l : List AuthResponse) :
    (auth_loop use_proxy l).1 =
      (until_first_success (fun r => (auth_attempt_success_token r).isSome) l).flatMap
        (fun r =>
          Eff.issueToken ::
            (if auth_exception r then
              (if use_proxy then [Eff.rotateProxy] else []) ++ [Eff.sleep 5]
            else [])) ∧
    (auth_loop use_proxy l).2 = (l.filterMap auth_attempt_success_token).head? := by
  induction l with
  | nil => simp [auth_loop, until_first_success]
  | cons r rest ih =>
    by_cases hexc : auth_exception r = true
    · have hsucc : auth_attempt_success_token r = none := by
        simp [auth_attempt_success_token, hexc]
      constructor
      · simp [auth_loop, hexc, until_first_success, hsucc, ih.1]
      · simp [auth_loop, hexc, hsucc, ih.2]
    · rw [Bool.not_eq_true] at hexc
      cases hst : auth_attempt_success_token r with
      | some t =>
        constructor
        · simp [auth_loop, hexc, hst, until_first_success]
        · simp [auth_loop, hexc, hst]
      | none =>
        constructor
        · simp [auth_loop, hexc, hst, until_first_success, ih.1]
        · simp [auth_loop, hexc, hst, ih.2]

/-- Characterization of the `activate_protection` retry loop on any attempt
list: the trace walks the attempts up to the first success, pausing 5s
exactly after raising attempts, and the result is whether some executed
attempt succeeded. -/
theorem act_loop_spec (l : List ActAttempt) :
    (act_loop l).1 =
      (until_first_success act_attempt_success l).flatMap
        (fun a =>
          match a with
          | .offRaised => [Eff.switchOff, Eff.sleep 5]
          | .onRaised => [Eff.switchOff, Eff.switchOn, Eff.sleep 5]
          | .onBody _ => [Eff.switchOff, Eff.switchOn]) ∧
    (act_loop l).2 = l.any act_attempt_success := by
  induction l with
  | nil => simp [act_loop, until_first_success]
  | cons a rest ih =>
    cases a with
    | offRaised =>
      refine ⟨?_, ?_⟩
      · simp [act_loop, until_first_success, act_attempt_success, ih.1]
      · simp [act_loop, act_attempt_success, ih.2]
    | onRaised =>
      refine ⟨?_, ?_⟩
      · simp [act_loop, until_first_success, act_attempt_success, ih.1]
      · simp [act_loop, act_attempt_success, ih.2]
    | onBody t =>
      by_cases hc : containsSessionStarted t = true
      · refine ⟨?_, ?_⟩
        · simp [act_loop, until_first_success, act_attempt_success, hc]
        · simp [act_loop, act_attempt_success, hc]
      · rw [Bool.not_eq_true] at hc
        refine ⟨?_, ?_⟩
        · simp [act_loop, until_first_success, act_attempt_success, hc, ih.1]
        · simp [act_loop, act_attempt_success, hc, ih.2]

/-! ## Claim theorems -/

/-- C8: once `get_next_proxy` has bound a proxy for an account (returning
`some p`), every subsequent `get_next_proxy` call for that account —
before any `rotate_proxy` — returns the same proxy and leaves the state
unchanged: repeated assignment is idempotent and the binding is never
silently reassigned. -/
theorem claim_C8_proxy_stickiness (s : BotState) (a p : String) (s' : BotState)
    (h : get_next_proxy s a = (some p, s')) (n : Nat) :
    assign_iter n s' a = (some p, s') := by
  induction n with
  | zero =>
    show get_next_proxy s' a = (some p, s')
    exact get_next_proxy_fixpoint s a p s' h
  | succ n ih =>
    show assign_iter n (get_next_proxy s' a).2 a = (some p, s')
    rw [get_next_proxy_fixpoint s a p s' h]
    exact ih

theorem claim_C8_witness :
    assign_iter 5 ⟨["proxyA"], 1, [("acct", "http://proxyA")]⟩ "acct" =
      (some "http://proxyA", ⟨["proxyA"], 1, [("acct", "http://proxyA")]⟩) :=
  claim_C8_proxy_stickiness ⟨["proxyA"], 0, []⟩ "acct" "http://proxyA"
    ⟨["proxyA"], 1, [("acct", "http://proxyA")]⟩ (by decide) 5

/-- C10: both proxy methods read the pool at `proxy_index % len(proxies)`,
which is in range for every cursor value once the pool is non-empty; with
an empty pool `rotate_proxy` returns the existing binding and leaves the
state (hence all account bindings) unchanged, and `get_next_proxy`
returns `none` for an account with no (truthy) binding. -/
theorem claim_C10_pool_access_safety (s : BotState) (a : String) :
    (s.proxies.length ≠ 0 → proxy_pool_index s < s.proxies.length) ∧
    (s.proxies.length = 0 → rotate_proxy s a = (dictGet s.account_proxies a, s)) ∧
    (s.proxies.length = 0 → (dictGet s.account_proxies a).getD "" = "" →
      get_next_proxy s a = (none, s)) := by
  refine ⟨fun h => Nat.mod_lt _ (Nat.pos_of_ne_zero h), fun h => ?_, fun h hb => ?_⟩
  · simp [rotate_proxy, h]
  · simp [get_next_proxy, hb, h]

theorem claim_C10_witness :
    proxy_pool_index ⟨["proxyA", "proxyB"], 7, []⟩ < 2 ∧
    rotate_proxy ⟨[], 3, []⟩ "acct" = (none, ⟨[], 3, []⟩) ∧
    get_next_proxy ⟨[], 3, []⟩ "acct" = (none, ⟨[], 3, []⟩) := by
  refine ⟨(claim_C10_pool_access_safety ⟨["proxyA", "proxyB"], 7, []⟩ "acct").1 (by decide),
    ?_, (claim_C10_pool_access_safety ⟨[], 3, []⟩ "acct").2.2 rfl (by decide)⟩
  have h := (claim_C10_pool_access_safety ⟨[], 3, []⟩ "acct").2.1 rfl
  simpa [dictGet] using h

/-- C2 counterexample: the claimed mapping is falsified at a response with
status 301 and a parsed body whose `success` field is truthy — the code's
`raise_for_status` only raises from 400 up, so the heartbeat is treated as
`ok`, while the claim maps every non-2xx, non-410 status to `failure`. -/
theorem claim_C2_counterexample :
    heartbeat_outcome (.response 301 (some (some true))) = .ok ∧
    claimed_heartbeat_outcome (.response 301 (some (some true))) = .failure := by
  decide

/-- C2 amended: the heartbeat outcome mapping is total and exhaustive, with
the `ok` window widened from 2xx to every status below 400: HTTP 410
yields `sessionExpired`; any other status below 400 with a parsed body
whose `success` field is truthy yields `ok`; everything else — status 400
and above, unparseable body, `success` false or missing, or a transport
error — yields `failure`. -/
theorem claim_C2_heartbeat_outcome_amended (r : HBResponse) :
    heartbeat_outcome r = amended_heartbeat_outcome r := by
  cases r with
  | transportError => rfl
  | response status body =>
    unfold heartbeat_outcome amended_heartbeat_outcome raise_for_status_raises
    by_cases h410 : status = 410
    · simp [h410]
    · by_cases h400 : 400 ≤ status
      · have hnc : ¬ (status < 400 ∧ body = some (some true)) := fun hc => by omega
        simp [h410, h400, hnc]
      · have hlt : status < 400 := by omega
        simp only [h410, if_false, decide_eq_true_eq, h400, if_neg, hlt, true_and]
        cases body with
        | none => simp [h400]
        | some success =>
          cases success with
          | none => simp [h400]
          | some b => cases b <;> simp [h400]

/-- C6 counterexample: the claimed recovery trace is falsified when every
attempt returns HTTP 200 with a parseable body lacking the `token` field —
by the claim those are failed attempts and must each be followed by a
proxy rotation and a 5s sleep, but the code's `except` branch never runs
(no exception is raised), so the loop retries immediately with no rotation
and no sleep. -/
theorem claim_C6_counterexample :
    (get_access_token true
        [.response 200 (some none), .response 200 (some none),
          .response 200 (some none)]).1 ≠
      claimed_auth_effects true
        [.response 200 (some none), .response 200 (some none),
          .response 200 (some none)] := by
  decide

/-- C6 amended: `get_access_token` makes up to 3 `IssueToken` attempts and
returns the first truthy token, `none` after three failures; the proxy
rotation (when proxy mode is enabled) and the 5s sleep happen exactly
after the attempts whose request raised — a network error, a status of
400 or above, or an unparseable body — while an HTTP-success attempt with
a missing or empty `token` field is retried immediately with no rotation
and no sleep. -/
theorem claim_C6_get_access_token_amended (use_proxy : Bool) (rs : List AuthResponse) :
    (get_access_token use_proxy rs).1 = amended_auth_effects use_proxy rs ∧
    (get_access_token use_proxy rs).2 =
      ((rs.take 3).filterMap auth_attempt_success_token).head? := by
  exact ⟨(auth_loop_spec use_proxy (rs.take 3)).1, (auth_loop_spec use_proxy (rs.take 3)).2⟩

/-- C7 counterexample: the claimed activation trace is falsified when all
three ON responses return without raising but with a body lacking
"Session started" — by the claim the three failed attempts are separated
by 5s pauses, but the code's sleep sits in the `except` branch only, so
the loop retries immediately. -/
theorem claim_C7_counterexample :
    (activate_protection [.onBody "ok", .onBody "ok", .onBody "ok"]).1 ≠
      claimed_act_effects [.onBody "ok", .onBody "ok", .onBody "ok"] := by
  decide

/-- C7 amended: `activate_protection` runs up to 3 deactivate-then-activate
attempts and returns success as soon as one ON response body contains
"Session started" (and failure after three attempts without it); the 5s
pause happens exactly after the attempts in which a request raised — an
attempt whose ON body merely lacks the phrase retries immediately with no
pause. -/
theorem claim_C7_activate_protection_amended (attempts : List ActAttempt) :
    (activate_protection attempts).1 = amended_act_effects attempts ∧
    (activate_protection attempts).2 = (attempts.take 3).any act_attempt_success := by
  exact ⟨(act_loop_spec (attempts.take 3)).1, (act_loop_spec (attempts.take 3)).2⟩

/-- C9 counterexample: the "returns error exactly when an exception was
raised" part of the claim is falsified by a non-raising response whose
body carries `state: "error"` — the code returns the field's value
`"error"` although no exception occurred. -/
theorem claim_C9_counterexample :
    get_protection_status (.response 200 (some "error")) = "error" ∧
    StatusResponse.response 200 (some "error") ≠ StatusResponse.raised := by
  decide

/-- C9 amended: `get_protection_status` returns the body's `state` field
whatever the HTTP status code is, `"unknown"` when the parsed body lacks
the field, and `"error"` whenever the request or the JSON parsing raises;
conversely a returned `"error"` without an exception can only come from a
body whose `state` field is itself the string `"error"`. -/
theorem claim_C9_status_amended :
    get_protection_status .raised = "error" ∧
    (∀ status, get_protection_status (.response status none) = "unknown") ∧
    (∀ status stateField,
      get_protection_status (.response status (some stateField)) = stateField) ∧
    (∀ status body,
      get_protection_status (.response status body) = "error" → body = some "error") := by
  refine ⟨rfl, fun _ => rfl, fun _ _ => rfl, fun status body h => ?_⟩
  cases body with
  | none => simp [get_protection_status] at h
  | some v => simp_all [get_protection_status]

theorem claim_C9_witness :
    get_protection_status (.response 7 (some "active")) = "active" ∧
    (some "error" : Option String) = some "error" :=
  ⟨claim_C9_status_amended.2.2.1 7 "active",
    claim_C9_status_amended.2.2.2 200 (some "error") (by decide)⟩

/-- C1: the token refresh at line 150 of `token_refresh_loop` rebinds only
that coroutine's own `token` local — after a refresh obtains `"tokenB"`,
the concurrently running heartbeat and protection loops still send their
original `"tokenA"` parameter on every subsequent call, contradicting the
claim that they use the new token.  (No restart occurs, and no channel
carries the new token to the sibling loops.) -/
theorem claim_C1_refreshed_token_not_propagated :
    (token_refresh_step 1000 (some "tokenB")
        (spawn_session_tasks "tokenA" 0)).refresh_token_local = "tokenB" ∧
    (token_refresh_step 1000 (some "tokenB")
        (spawn_session_tasks "tokenA" 0)).last_refresh = 1000 ∧
    heartbeat_call_token
        (token_refresh_step 1000 (some "tokenB") (spawn_session_tasks "tokenA" 0)) =
      "tokenA" ∧
    protection_call_token
        (token_refresh_step 1000 (some "tokenB") (spawn_session_tasks "tokenA" 0)) =
      "tokenA" ∧
    "tokenA" ≠ "tokenB" := by
  decide

/-- C3: when all three renewal attempts fail, `handle_heartbeat_failure`
has rotated the proxy first and slept 1s, 2s, 4s before the attempts as
claimed, but the final full-restart step calls `maintain_session` with two
positional arguments where its signature requires three, so Python raises
`TypeError` instead of cleanly re-entering the session-maintenance loop; a
call supplying all three parameters would have run. -/
theorem claim_C3_full_restart_raises_type_error :
    handle_heartbeat_failure [false, false, false] =
      ([Eff.rotateProxy, Eff.sleep 1, Eff.renewAttempt, Eff.sleep 2, Eff.renewAttempt,
        Eff.sleep 4, Eff.renewAttempt], PyCall.typeError) ∧
    call_maintain_session maintain_session_param_count = PyCall.ran := by
  decide

/-- C4: two tasks that enter the rate limiter's pacing wait concurrently
(here both at loop time 0 with `last_call = 0` and `interval = 1`) each
read the not-yet-updated `last_call`, sleep to the same deadline, and are
granted at the same instant — the gap between the two consecutive grants
is 0, violating the claimed global minimum interval of 1s. -/
theorem claim_C4_min_interval_violated :
    two_task_grants 0 1 0 0 = (1, 1) ∧
    (two_task_grants 0 1 0 0).2 - (two_task_grants 0 1 0 0).1 < 1 := by
  constructor
  · norm_num [two_task_grants, pace_wake, pace_sleeps]
  · norm_num [two_task_grants, pace_wake, pace_sleeps]

/-- C5: a 410 heartbeat does invoke renewal — one `IssueToken` then Switch
OFF then Switch ON with the stored device hash, succeeding here — but the
heartbeat coroutine then returns (`exitLoop`), and with the shutdown event
unset `maintain_session` cannot re-enter token acquisition because
`asyncio.gather` still awaits the never-returning protection and refresh
loops; those surviving loops continue with the original token, so the
session does not resume the Active state with the new token. -/
theorem claim_C5_renewal_without_resume :
    heartbeat_outcome (.response 410 none) = .sessionExpired ∧
    heartbeat_loop_step (.response 410 none) true = .exitLoop true ∧
    renew_session false [.response 200 (some (some "tokenB"))] (some 123)
        [.onBody "Session started"] =
      ([Eff.issueToken, Eff.switchOff, Eff.switchOn], true) ∧
    maintain_session_reenters_acquisition false = false ∧
    heartbeat_call_token (spawn_session_tasks "tokenA" 0) = "tokenA" ∧
    protection_call_token (spawn_session_tasks "tokenA" 0) = "tokenA" := by
  decide

end NaorisBot
